import Mathlib

/-!
Shallow embedding of the Ledger device-session controller
(src/main/signers/ledger/Ledger/index.ts) and of the fragments of its
Ethereum-app wrapper (src/main/signers/ledger/Ledger/eth.ts) that the
verified properties need.

The session object is modelled as an explicit state record (`Ledger`);
event emission is modelled as an append-only event log, and timer
operations (clearTimeout / pollDeviceStatus) as an append-only trace of
timer operations plus a derived `pollFreq` field recording the currently
active poller frequency.  Device calls are modelled by passing their
settlement outcome as an explicit argument.  Error codes are `Option Int`
(`none` is JavaScript `undefined`).
-/

namespace Frame

/-- The STATUS record of index.ts, as a closed enumeration (the source
uses distinct status strings; only their identity matters here). -/
inductive Status
  | INITIAL
  | OK
  | LOADING
  | DERIVING
  | LOCKED
  | WRONG_APP
  | DISCONNECTED
  | NEEDS_RECONNECTION
deriving DecidableEq, Repr

/-- The Derivation enumeration of eth.ts. -/
inductive Derivation
  | live
  | legacy
  | standard
  | testnet
deriving DecidableEq, Repr

/-- Events emitted by the session (update, lock, unlock, close). -/
inductive Event
  | update
  | lock
  | unlock
  | close
deriving DecidableEq, Repr

/-- Timer operations performed by the session: clearTimeout/clearInterval
on the status poller, and pollDeviceStatus(frequency). -/
inductive TimerOp
  | clearTimer
  | startPoll (frequency : Nat)
deriving DecidableEq, Repr

/-- A device error as seen by the session: `statusCode` may be absent
(JavaScript `undefined`), `message` is the error message. -/
structure DeviceError where
  statusCode : Option Int
  message : String
deriving DecidableEq, Repr

/-- index.ts `isDeviceAsleep`: `[27404].includes(err.statusCode)`.
`includes` on an absent status code is false. -/
def isDeviceAsleep (statusCode : Option Int) : Bool :=
  match statusCode with
  | some code => ([27404] : List Int).contains code
  | none => false

/-- index.ts `needToOpenEthApp`:
`[27904, 27906, 25873, 25871].includes(err.statusCode)`. -/
def needToOpenEthApp (statusCode : Option Int) : Bool :=
  match statusCode with
  | some code => ([27904, 27906, 25873, 25871] : List Int).contains code
  | none => false

/-- index.ts `getStatusForError`: WRONG_APP if the eth app must be opened,
LOCKED if the device is asleep, NEEDS_RECONNECTION otherwise. -/
def getStatusForError (statusCode : Option Int) : Status :=
  if needToOpenEthApp statusCode then Status.WRONG_APP
  else if isDeviceAsleep statusCode then Status.LOCKED
  else Status.NEEDS_RECONNECTION

/-- The observable state of a Ledger session.  `events` and `timerOps`
are append-only traces; `pollFreq` is the frequency of the currently
scheduled status poller (`none` when no poller is scheduled); `epoch` is
a ghost derivation-generation counter incremented on every call to
`deriveAddresses` (the spec describes such a counter; the source has no
such field, which is exactly what the theorems below examine). -/
structure Ledger where
  status : Status
  addresses : List String
  derivation : Option Derivation
  accountLimit : Nat
  closed : Bool
  events : List Event
  timerOps : List TimerOp
  pollFreq : Option Nat
  epoch : Nat
deriving DecidableEq, Repr

/-- The state established by the constructor of index.ts: status INITIAL,
empty address list, no derivation selected yet, accountLimit 5. -/
def initialLedger : Ledger :=
  { status := Status.INITIAL
    addresses := []
    derivation := none
    accountLimit := 5
    closed := false
    events := []
    timerOps := []
    pollFreq := none
    epoch := 0 }

/-- index.ts `updateStatus`: set the status; if the new status is OK,
clear the poller and poll every 5000ms; if LOCKED, clear the poller and
poll every 500ms; otherwise leave the poller untouched. -/
def updateStatus (status : Status) (s : Ledger) : Ledger :=
  let s := { s with status := status }
  let s :=
    if s.status = Status.OK then
      { s with timerOps := s.timerOps ++ [TimerOp.clearTimer, TimerOp.startPoll 5000]
               pollFreq := some 5000 }
    else s
  if s.status = Status.LOCKED then
    { s with timerOps := s.timerOps ++ [TimerOp.clearTimer, TimerOp.startPoll 500]
             pollFreq := some 500 }
  else s

/-- index.ts `close`: close the request queue (pending requests dropped --
queue behaviour modelled from the spec, the requestQueue module is not
part of the sources), clear the status poller, release the transport,
emit a close event. -/
def closeSession (s : Ledger) : Ledger :=
  { s with closed := true
           timerOps := s.timerOps ++ [TimerOp.clearTimer]
           pollFreq := none
           events := s.events ++ [Event.close] }

/-- index.ts `handleError`: if the device is asleep and the session is not
already LOCKED, go to LOCKED and emit a lock event; otherwise classify the
error, and if the classified status differs from the current one, update
the status, emit an update event, and close the session when the new
status is NEEDS_RECONNECTION. -/
def handleError (statusCode : Option Int) (s : Ledger) : Ledger :=
  if isDeviceAsleep statusCode ∧ s.status ≠ Status.LOCKED then
    let s := updateStatus Status.LOCKED s
    { s with events := s.events ++ [Event.lock] }
  else
    let errorStatus := getStatusForError statusCode
    if errorStatus ≠ s.status then
      let s := updateStatus errorStatus s
      let s := { s with events := s.events ++ [Event.update] }
      if s.status = Status.NEEDS_RECONNECTION then closeSession s else s
    else s

/-- The settlement of the raw liveness probe inside
index.ts `checkDeviceStatus`: the probe call succeeds, or throws an error
(whose statusCode may be absent), or does not settle within the 3000ms
timer. -/
inductive ProbeOutcome
  | success
  | failure (statusCode : Option Int)
  | timeout
deriving DecidableEq, Repr

/-- The code the inner promise of `checkDeviceStatus` resolves with:
0 on success, `e.statusCode || -1` on a thrown error (JavaScript
falsiness: an absent or zero statusCode becomes -1), and -1 when the
3000ms timer fires first.  Every path resolves; none rejects. -/
def resolvedProbeCode : ProbeOutcome → Int
  | ProbeOutcome.success => 0
  | ProbeOutcome.failure (some code) => if code = 0 then -1 else code
  | ProbeOutcome.failure none => -1
  | ProbeOutcome.timeout => -1

/-- index.ts `checkDeviceStatus`: resolve the probe to a code; on code 0,
if the session is LOCKED, clear the pending poller timer, go to OK and
emit an unlock event, else do nothing; on a nonzero code, hand it to
`handleError`.  Returns the updated session and the resolved code. -/
def checkDeviceStatus (outcome : ProbeOutcome) (s : Ledger) : Ledger × Int :=
  let statusCode := resolvedProbeCode outcome
  if statusCode = 0 then
    if s.status = Status.LOCKED then
      let s := { s with timerOps := s.timerOps ++ [TimerOp.clearTimer], pollFreq := none }
      let s := updateStatus Status.OK s
      ({ s with events := s.events ++ [Event.unlock] }, statusCode)
    else (s, statusCode)
  else (handleError (some statusCode) s, statusCode)

/-- index.ts `deriveAddresses`, up to the point where the
strategy-specific requests are enqueued: clear the request queue, clear
the address list, go to DERIVING and emit an update event.  The ghost
`epoch` counter is incremented here: each call is a new derivation
trigger. -/
def deriveAddressesStart (s : Ledger) : Ledger :=
  let s := { s with addresses := [], epoch := s.epoch + 1 }
  let s := updateStatus Status.DERIVING s
  { s with events := s.events ++ [Event.update] }

/-- The completion handler of one per-index request of
index.ts `deriveLiveAddresses` (lines 282-291), applied when the device
returned `address`: if the session's current derivation is still `live`,
move DERIVING to OK on the first completion, append the address to the
list and emit an update event; otherwise discard the result. -/
def applyLiveResult (address : String) (s : Ledger) : Ledger :=
  if s.derivation = some Derivation.live then
    let s := if s.status = Status.DERIVING then updateStatus Status.OK s else s
    let s := { s with addresses := s.addresses ++ [address] }
    { s with events := s.events ++ [Event.update] }
  else s

/-- The completion handler of the bulk request of
index.ts `deriveHardwareAddresses` (lines 314-323), with
`targetDerivation` the derivation captured when the request was created:
if the session's current derivation still equals the captured one, move
DERIVING to OK, replace the whole address list and emit an update event;
otherwise discard the result. -/
def applyHardwareResult (targetDerivation : Option Derivation)
    (addresses : List String) (s : Ledger) : Ledger :=
  if s.derivation = targetDerivation then
    let s := if s.status = Status.DERIVING then updateStatus Status.OK s else s
    let s := { s with addresses := addresses }
    { s with events := s.events ++ [Event.update] }
  else s

/-- The execute body of one per-index request of `deriveLiveAddresses`,
given the settlement of its device call: a successful call applies the
result, a thrown error is caught inside the request and routed to
`handleError`. -/
def runLiveRequest (outcome : Except DeviceError String) (s : Ledger) : Ledger :=
  match outcome with
  | Except.ok address => applyLiveResult address s
  | Except.error e => handleError e.statusCode s

/-- Modelled from the spec: the RequestQueue (module requestQueue, not
among the sources; spec sections 4.3 and 5) runs requests one at a time
in FIFO order, and closing the session clears all pending (not yet
started) requests, so once the session is closed the remaining requests
never execute.  `runLiveQueue` runs the per-index derivation requests for
the given indices in order under that discipline. -/
def runLiveQueue (outcomes : Nat → Except DeviceError String) :
    List Nat → Ledger → Ledger
  | [], s => s
  | i :: rest, s =>
      if s.closed then s
      else runLiveQueue outcomes rest (runLiveRequest (outcomes i) s)

/-- index.ts `deriveLiveAddresses`: one request per index
0 .. accountLimit - 1, enqueued in ascending index order. -/
def deriveLiveAddresses (outcomes : Nat → Except DeviceError String)
    (s : Ledger) : Ledger :=
  runLiveQueue outcomes (List.range s.accountLimit) s

/-- What the `verifyAddress` request body hands to its callback:
an error with no result, or a boolean success flag with no error. -/
inductive CallbackResult
  | failure (message : String)
  | success (flag : Bool)
deriving DecidableEq, Repr

/-- JavaScript String.prototype.toLowerCase as used by `verifyAddress`
on hexadecimal address strings, modelled character-wise. -/
def toLowerCase (s : String) : String := String.mk (s.data.map Char.toLower)

/-- The execute body of index.ts `verifyAddress` (lines 338-360), given
the settlement of the device address fetch: on success, a case-insensitive
mismatch with `currentAddress` routes a synthetic -1 code through
`handleError` and reports an error to the callback, a match reports
success true; a thrown device error is routed through `handleError` and
reported to the callback as a verification error. -/
def verifyAddressExecute (outcome : Except DeviceError String)
    (currentAddress : String) (s : Ledger) : Ledger × CallbackResult :=
  match outcome with
  | Except.ok address =>
      if toLowerCase address ≠ toLowerCase currentAddress then
        (handleError (some (-1)) s, CallbackResult.failure "Address does not match device")
      else
        (s, CallbackResult.success true)
  | Except.error e =>
      (handleError e.statusCode s, CallbackResult.failure ("verify address error: " ++ e.message))

/-- The settlement of the raw `getAppConfiguration` device call: it
returns a version, throws, or does not settle within the 1000ms timer. -/
inductive ConfigOutcome
  | ok (version : String)
  | failure (e : DeviceError)
  | hang
deriving DecidableEq, Repr

/-- The duration of the manual timer in index.ts `getAppConfiguration`. -/
def appConfigTimeoutMs : Nat := 1000

/-- The synthetic status code used when the `getAppConfiguration` timer
fires first: 27904 while the session status is still INITIAL
(connecting), -1 otherwise (index.ts line 392). -/
def appConfigTimeoutCode (s : Ledger) : Int :=
  if s.status = Status.INITIAL then 27904 else -1

/-- index.ts `getAppConfiguration`: race the device call against the
1000ms timer; if the timer fires first, reject with the status-dependent
synthetic code. -/
def getAppConfiguration (outcome : ConfigOutcome) (s : Ledger) :
    Except DeviceError String :=
  match outcome with
  | ConfigOutcome.ok version => Except.ok version
  | ConfigOutcome.failure e => Except.error e
  | ConfigOutcome.hang =>
      Except.error { statusCode := some (appConfigTimeoutCode s)
                     message := "getAppConfiguration timed out" }

/-! ## Concrete session states used by witnesses and counterexamples -/

/-- A session whose status is OK (e.g. after a successful connect). -/
def okLedger : Ledger := { initialLedger with status := Status.OK }

/-- A session whose status is LOCKED. -/
def lockedLedger : Ledger := { initialLedger with status := Status.LOCKED }

/-- A session in status OK whose 5000ms poller is active (the state
`updateStatus OK` leaves behind). -/
def pollingLedger : Ledger :=
  { initialLedger with
    status := Status.OK
    pollFreq := some 5000
    timerOps := [TimerOp.clearTimer, TimerOp.startPoll 5000] }

/-! ## Helper lemmas -/

/-- The only error code classified as asleep is 27404. -/
theorem isDeviceAsleep_eq (code : Option Int) (h : isDeviceAsleep code = true) :
    code = some 27404 := by
  match code with
  | some c =>
      simp only [isDeviceAsleep, List.elem_eq_mem, List.mem_singleton,
        decide_eq_true_eq] at h
      simp [h]
  | none => simp [isDeviceAsleep] at h

/-- A code that is not an asleep code classifies to WRONG_APP or to
NEEDS_RECONNECTION, never to LOCKED. -/
theorem getStatusForError_of_not_asleep (code : Option Int)
    (h : isDeviceAsleep code = false) :
    getStatusForError code = Status.WRONG_APP ∨
    getStatusForError code = Status.NEEDS_RECONNECTION := by
  unfold getStatusForError
  split_ifs with h1 h2
  · exact Or.inl rfl
  · rw [h] at h2; cases h2
  · exact Or.inr rfl

/-! ## Theorems -/

/-- C2: the error classifier is a total, deterministic function from error
codes to statuses that never throws: code 27404 (device asleep) maps to
LOCKED; codes 27904, 27906, 25873, 25871 (Ethereum app not open/active)
map to WRONG_APP; every other code, including the synthetic timeout code
-1, maps to NEEDS_RECONNECTION (as does an absent code). -/
theorem c2_classifier_total (code : Int) :
    getStatusForError (some code) =
      (if code = 27404 then Status.LOCKED
       else if code = 27904 ∨ code = 27906 ∨ code = 25873 ∨ code = 25871 then
         Status.WRONG_APP
       else Status.NEEDS_RECONNECTION) ∧
    getStatusForError (some (-1)) = Status.NEEDS_RECONNECTION ∧
    getStatusForError none = Status.NEEDS_RECONNECTION := by
  refine ⟨?_, by decide, by decide⟩
  by_cases h1 : code = 27404
  · subst h1; decide
  by_cases h2 : code = 27904
  · subst h2; decide
  by_cases h3 : code = 27906
  · subst h3; decide
  by_cases h4 : code = 25873
  · subst h4; decide
  by_cases h5 : code = 25871
  · subst h5; decide
  simp [getStatusForError, needToOpenEthApp, isDeviceAsleep, h1, h2, h3, h4, h5]

/-- C3: handling an asleep-mapped error code while the status is not
LOCKED transitions the status to LOCKED and emits exactly one lock event;
handling any further asleep-mapped error while already LOCKED leaves the
session unchanged and emits nothing, so a lock event fires exactly once
per entry into LOCKED. -/
theorem c3_lock_once_per_entry (code : Option Int) (s : Ledger)
    (h : isDeviceAsleep code = true) :
    (s.status ≠ Status.LOCKED →
      (handleError code s).status = Status.LOCKED ∧
      (handleError code s).events = s.events ++ [Event.lock]) ∧
    (s.status = Status.LOCKED → handleError code s = s) ∧
    (s.status ≠ Status.LOCKED →
      handleError code (handleError code s) = handleError code s) := by
  have hc : code = some 27404 := by
    match code with
    | some c =>
        simp only [isDeviceAsleep, List.elem_eq_mem, List.mem_singleton,
          decide_eq_true_eq] at h
        simp [h]
    | none => simp [isDeviceAsleep] at h
  subst hc
  by_cases hs : s.status = Status.LOCKED
  · simp [handleError, getStatusForError, needToOpenEthApp, isDeviceAsleep, hs]
  · simp [handleError, updateStatus, getStatusForError, needToOpenEthApp,
      isDeviceAsleep, hs]

/-- Witness for C3: from a session in status OK, an asleep error (27404)
enters LOCKED and emits exactly one lock event. -/
theorem c3_lock_once_per_entry_witness :
    (handleError (some 27404) okLedger).status = Status.LOCKED ∧
    (handleError (some 27404) okLedger).events = [Event.lock] := by
  have h := (c3_lock_once_per_entry (some 27404) okLedger (by decide)).1 (by decide)
  exact ⟨h.1, by simpa [okLedger, initialLedger] using h.2⟩

/-- C4: on a success result (code 0) while the session status is LOCKED,
`checkDeviceStatus` stops the pending poller timer, transitions to OK
(which reschedules polling at 5000ms) and emits exactly one unlock event;
on a success while the status is not LOCKED, nothing changes and no event
is emitted. -/
theorem c4_unlock_on_success (s : Ledger) :
    (s.status = Status.LOCKED →
      (checkDeviceStatus ProbeOutcome.success s).1.status = Status.OK ∧
      (checkDeviceStatus ProbeOutcome.success s).1.events = s.events ++ [Event.unlock] ∧
      (checkDeviceStatus ProbeOutcome.success s).1.timerOps =
        s.timerOps ++ [TimerOp.clearTimer, TimerOp.clearTimer, TimerOp.startPoll 5000] ∧
      (checkDeviceStatus ProbeOutcome.success s).2 = 0) ∧
    (s.status ≠ Status.LOCKED → checkDeviceStatus ProbeOutcome.success s = (s, 0)) := by
  by_cases hs : s.status = Status.LOCKED <;>
    simp [checkDeviceStatus, resolvedProbeCode, updateStatus, hs]

/-- Witness for C4: a success probe on a concrete LOCKED session yields
status OK and exactly one unlock event. -/
theorem c4_unlock_on_success_witness :
    (checkDeviceStatus ProbeOutcome.success lockedLedger).1.status = Status.OK ∧
    (checkDeviceStatus ProbeOutcome.success lockedLedger).1.events = [Event.unlock] := by
  have h := (c4_unlock_on_success lockedLedger).1 (by decide)
  exact ⟨h.1, by simpa [lockedLedger, initialLedger] using h.2.1⟩

/-- C6, counterexample: `updateStatus` with a status other than OK or
LOCKED does not deactivate an existing poller: from a session with an
active 5000ms poller, `updateStatus DERIVING` leaves the poller active,
contradicting the claim that any other status results in no active
poller. -/
theorem c6_counterexample :
    (updateStatus Status.DERIVING pollingLedger).pollFreq = some 5000 ∧
    (updateStatus Status.DERIVING pollingLedger).status = Status.DERIVING ∧
    some 5000 ≠ (none : Option Nat) := by decide

/-- C6, amended: `updateStatus OK` reschedules the poller at 5000ms and
`updateStatus LOCKED` at 500ms; `updateStatus` with any other status sets
the status but leaves the poller exactly as it was (an active poller is
not stopped). -/
theorem c6_amended (status : Status) (s : Ledger) :
    (updateStatus status s).status = status ∧
    (updateStatus status s).pollFreq =
      (if status = Status.OK then some 5000
       else if status = Status.LOCKED then some 500
       else s.pollFreq) ∧
    (updateStatus status s).timerOps =
      (if status = Status.OK then
        s.timerOps ++ [TimerOp.clearTimer, TimerOp.startPoll 5000]
      else if status = Status.LOCKED then
        s.timerOps ++ [TimerOp.clearTimer, TimerOp.startPoll 500]
      else s.timerOps) := by
  cases status <;> simp [updateStatus]

/-- C9, counterexample: when the app-configuration timer fires while the
session is still connecting (status INITIAL), the synthetic error code is
27904, and the classifier maps 27904 to WRONG_APP, not to LOCKED. -/
theorem c9_counterexample :
    initialLedger.status = Status.INITIAL ∧
    getAppConfiguration ConfigOutcome.hang initialLedger =
      Except.error { statusCode := some 27904
                     message := "getAppConfiguration timed out" } ∧
    getStatusForError (some 27904) = Status.WRONG_APP ∧
    Status.WRONG_APP ≠ Status.LOCKED :=
  ⟨rfl, rfl, by decide, by decide⟩

/-- C9, amended: the guarded app-configuration fetch races the device
call against a 1000ms timer; when the timer fires first, the synthetic
code is 27904 (classified WRONG_APP, the open-the-Ethereum-app status)
while the session is still connecting, and -1 (classified
NEEDS_RECONNECTION) in any other status. -/
theorem c9_amended (s : Ledger) :
    getAppConfiguration ConfigOutcome.hang s =
      Except.error { statusCode := some (appConfigTimeoutCode s)
                     message := "getAppConfiguration timed out" } ∧
    getStatusForError (some (appConfigTimeoutCode s)) =
      (if s.status = Status.INITIAL then Status.WRONG_APP
       else Status.NEEDS_RECONNECTION) ∧
    appConfigTimeoutMs = 1000 := by
  refine ⟨rfl, ?_, rfl⟩
  by_cases hs : s.status = Status.INITIAL <;>
    simp [appConfigTimeoutCode, hs, getStatusForError, needToOpenEthApp,
      isDeviceAsleep]

/-- C10, counterexample: a probe that throws an error carrying the
present status code 0 resolves to -1, not to the error's status code
(JavaScript falsiness in the expression resolving the code). -/
theorem c10_counterexample :
    resolvedProbeCode (ProbeOutcome.failure (some 0)) = -1 ∧
    (checkDeviceStatus (ProbeOutcome.failure (some 0)) okLedger).2 = -1 ∧
    ((-1 : Int) ≠ 0) := by decide

/-- C10, amended: `checkDeviceStatus` never rejects: for every probe
outcome it resolves with a numeric code -- 0 on success, the error's
status code when present and nonzero, and -1 otherwise (status code
absent or zero, or no settlement within the 3000ms timer) -- and a
nonzero code is routed to `handleError` rather than propagating as an
exception. -/
theorem c10_amended (outcome : ProbeOutcome) (s : Ledger) :
    ((checkDeviceStatus outcome s).2 = resolvedProbeCode outcome) ∧
    resolvedProbeCode ProbeOutcome.success = 0 ∧
    (∀ c : Int, c ≠ 0 → resolvedProbeCode (ProbeOutcome.failure (some c)) = c) ∧
    resolvedProbeCode (ProbeOutcome.failure none) = -1 ∧
    resolvedProbeCode ProbeOutcome.timeout = -1 ∧
    ((checkDeviceStatus outcome s).2 ≠ 0 →
      (checkDeviceStatus outcome s).1 =
        handleError (some ((checkDeviceStatus outcome s).2)) s) ∧
    ((checkDeviceStatus outcome s).2 = 0 → s.status ≠ Status.LOCKED →
      (checkDeviceStatus outcome s).1 = s) := by
  have h2 : (checkDeviceStatus outcome s).2 = resolvedProbeCode outcome := by
    by_cases h0 : resolvedProbeCode outcome = 0 <;>
      by_cases hs : s.status = Status.LOCKED <;>
        simp [checkDeviceStatus, h0, hs]
  refine ⟨h2, rfl, ?_, rfl, rfl, ?_, ?_⟩
  · intro c hc; simp [resolvedProbeCode, hc]
  · intro hne
    rw [h2] at hne ⊢
    simp [checkDeviceStatus, hne]
  · intro hz hs
    rw [h2] at hz
    simp [checkDeviceStatus, hz, hs]

/-- Witness for C10 (amended): a probe failing with code 27904 resolves
to 27904 and its session state is the one `handleError` produces. -/
theorem c10_amended_witness :
    (checkDeviceStatus (ProbeOutcome.failure (some 27904)) okLedger).1 =
      handleError (some 27904) okLedger := by
  have h :=
    (c10_amended (ProbeOutcome.failure (some 27904)) okLedger).2.2.2.2.2.1 (by decide)
  have he : (checkDeviceStatus (ProbeOutcome.failure (some 27904)) okLedger).2 = 27904 := by
    decide
  rw [he] at h
  exact h

/-- C7, counterexample: handling a WRONG_APP-classified error (code
27904) from status OK updates the status and emits an update event but
does not close the session, contradicting the claim that every resulting
status other than LOCKED, CONNECTING or OK additionally closes the
session; moreover entering LOCKED via an asleep error emits only a lock
event, no update event. -/
theorem c7_counterexample :
    (handleError (some 27904) okLedger).status = Status.WRONG_APP ∧
    (handleError (some 27904) okLedger).closed = false ∧
    (handleError (some 27404) okLedger).events = [Event.lock] ∧
    Event.update ∉ (handleError (some 27404) okLedger).events := by decide

/-- C7, amended: the error-handling entry point classifies the error; a
differing classified status is applied, emitting an update event for
non-asleep codes (entering LOCKED emits only a lock event); the session
is additionally closed exactly when the resulting status is
NEEDS_RECONNECTION and differs from the current one -- a resulting
WRONG_APP status does not close the session. -/
theorem c7_amended (code : Option Int) (s : Ledger) (h : s.closed = false) :
    ((handleError code s).closed = true ↔
      (getStatusForError code = Status.NEEDS_RECONNECTION ∧
        s.status ≠ Status.NEEDS_RECONNECTION)) ∧
    (isDeviceAsleep code = false → getStatusForError code ≠ s.status →
      (handleError code s).status = getStatusForError code ∧
      (handleError code s).events =
        s.events ++
          (if getStatusForError code = Status.NEEDS_RECONNECTION then
            [Event.update, Event.close]
          else [Event.update])) := by
  by_cases ha : isDeviceAsleep code = true
  · have hc := isDeviceAsleep_eq code ha
    subst hc
    by_cases hs : s.status = Status.LOCKED
    · constructor
      · simp [handleError, getStatusForError, needToOpenEthApp, isDeviceAsleep,
          hs, h]
      · intro hfalse; exact absurd hfalse (by decide)
    · constructor
      · simp [handleError, updateStatus, getStatusForError, needToOpenEthApp,
          isDeviceAsleep, hs, h]
      · intro hfalse; exact absurd hfalse (by decide)
  · have ha' : isDeviceAsleep code = false := by
      cases hb : isDeviceAsleep code
      · rfl
      · exact absurd hb ha
    rcases getStatusForError_of_not_asleep code ha' with hw | hn
    · by_cases he : s.status = Status.WRONG_APP
      · constructor
        · simp [handleError, hw, he, ha', h]
        · intro _ hne; rw [hw, he] at hne; exact absurd rfl hne
      · have he' : ¬(Status.WRONG_APP = s.status) := fun hh => he hh.symm
        constructor
        · simp [handleError, updateStatus, hw, he, he', ha', h]
        · intro _ _
          constructor
          · simp [handleError, updateStatus, hw, he, he', ha']
          · simp [handleError, updateStatus, hw, he, he', ha']
    · by_cases he : s.status = Status.NEEDS_RECONNECTION
      · constructor
        · simp [handleError, hn, he, ha', h]
        · intro _ hne; rw [hn, he] at hne; exact absurd rfl hne
      · have he' : ¬(Status.NEEDS_RECONNECTION = s.status) := fun hh => he hh.symm
        constructor
        · simp [handleError, updateStatus, closeSession, hn, he, he', ha', h]
        · intro _ _
          constructor
          · simp [handleError, updateStatus, closeSession, hn, he, he', ha']
          · simp [handleError, updateStatus, closeSession, hn, he, he', ha']

/-- Witness for C7 (amended): a NEEDS_RECONNECTION-classified error
(code -1) from a concrete open session in status OK closes the session. -/
theorem c7_amended_witness :
    (handleError (some (-1)) okLedger).closed = true := by
  exact (c7_amended (some (-1)) okLedger rfl).1.mpr ⟨by decide, by decide⟩

/-- C8: the `verifyAddress` request body compares the device-returned
address to the expected address case-insensitively: a case-insensitive
match reports success true with no error; a mismatch reports an error
with no result and additionally routes the synthetic code -1 (classified
NEEDS_RECONNECTION) through the session's error path; a device failure
routes the thrown error through the error path and reports a descriptive
error; every callback invocation carries either an error and no result or
no error and a boolean success flag. -/
theorem c8_verify_address (outcome : Except DeviceError String)
    (currentAddress : String) (s : Ledger) :
    ((verifyAddressExecute outcome currentAddress s).2 = CallbackResult.success true ∨
      ∃ m, (verifyAddressExecute outcome currentAddress s).2 = CallbackResult.failure m) ∧
    (∀ a, outcome = Except.ok a →
      ((verifyAddressExecute outcome currentAddress s).2 = CallbackResult.success true ↔
        toLowerCase a = toLowerCase currentAddress)) ∧
    (∀ a, outcome = Except.ok a → toLowerCase a = toLowerCase currentAddress →
      verifyAddressExecute outcome currentAddress s = (s, CallbackResult.success true)) ∧
    (∀ a, outcome = Except.ok a → toLowerCase a ≠ toLowerCase currentAddress →
      verifyAddressExecute outcome currentAddress s =
        (handleError (some (-1)) s,
          CallbackResult.failure "Address does not match device")) ∧
    getStatusForError (some (-1)) = Status.NEEDS_RECONNECTION ∧
    (∀ e, outcome = Except.error e →
      verifyAddressExecute outcome currentAddress s =
        (handleError e.statusCode s,
          CallbackResult.failure ("verify address error: " ++ e.message))) := by
  have hclass : getStatusForError (some (-1)) = Status.NEEDS_RECONNECTION := by decide
  cases outcome with
  | ok a =>
      by_cases hm : toLowerCase a = toLowerCase currentAddress <;>
        simp [verifyAddressExecute, hm, hclass]
  | error e => simp [verifyAddressExecute, hclass]

/-- Witness for C8: the device returning the same address in a different
case (0xABCD vs expected 0xabcd) reports success true and changes no
session state. -/
theorem c8_verify_address_witness :
    verifyAddressExecute (Except.ok "0xABCD") "0xabcd" initialLedger =
      (initialLedger, CallbackResult.success true) := by
  exact (c8_verify_address (Except.ok "0xABCD") "0xabcd" initialLedger).2.2.1
    "0xABCD" rfl (by decide)

/-! ## Derivation scenarios -/

/-- A fresh session whose derivation target is Ledger Live. -/
def liveLedger : Ledger := { initialLedger with derivation := some Derivation.live }

/-- The session after a first derivation trigger (ghost epoch 1): an
address-derivation task created now captures epoch 1. -/
def c1Epoch1 : Ledger := deriveAddressesStart liveLedger

/-- The session after derivation is re-triggered (ghost epoch 2) while
the epoch-1 task is still in flight: pending queue entries are cleared,
but the already-executing task cannot be aborted. -/
def c1Epoch2 : Ledger := deriveAddressesStart c1Epoch1

/-- Device outcomes for per-index derivation with limit 5: indices 0, 1,
3, 4 succeed with the given addresses and index 2 throws the given
device error. -/
def c5OutcomesOf (a0 a1 a3 a4 : String) (e : DeviceError) :
    Nat → Except DeviceError String :=
  fun i =>
    match i with
    | 0 => Except.ok a0
    | 1 => Except.ok a1
    | 2 => Except.error e
    | 3 => Except.ok a3
    | _ => Except.ok a4

/-- Outcomes where index 2 fails with the unmapped device code 1
(classified NEEDS_RECONNECTION). -/
def c5Outcomes : Nat → Except DeviceError String :=
  c5OutcomesOf "0xa0" "0xa1" "0xa3" "0xa4"
    { statusCode := some 1, message := "device failure" }

/-- The session state right after `deriveAddresses` triggers per-index
derivation on a live-derivation session. -/
def c5Start : Ledger := deriveAddressesStart liveLedger

/-- C1, counterexample: the completion guard of the per-index deriver
checks only that the current derivation kind is still `live`, not a
derivation epoch: after derivation is re-triggered (epoch 2, fresh empty
address list), the completion of a task created at epoch 1 still appends
its address, so the epoch-1 result does affect the address list even
though its captured epoch 1 differs from the current epoch 2. -/
theorem c1_counterexample :
    c1Epoch1.epoch = 1 ∧
    c1Epoch2.epoch = 2 ∧
    (1 : Nat) ≠ c1Epoch2.epoch ∧
    c1Epoch2.derivation = some Derivation.live ∧
    c1Epoch2.addresses = [] ∧
    (applyLiveResult "0xstale" c1Epoch2).addresses = ["0xstale"] ∧
    (["0xstale"] : List String) ≠ [] := by decide

/-- C1, amended: the stale-result guard compares derivation kinds, not
epochs: a completing task overwrites the addresses list only if its
relevant derivation kind (live for the per-index deriver, the captured
target for the bulk deriver) still equals the session's current
derivation at completion time; a result whose derivation no longer
matches is silently discarded, while a stale result from an earlier
trigger with the same derivation kind can still modify the list. -/
theorem c1_amended (s : Ledger) :
    (∀ a : String, s.derivation ≠ some Derivation.live → applyLiveResult a s = s) ∧
    (∀ (targetDerivation : Option Derivation) (addresses : List String),
      s.derivation ≠ targetDerivation →
      applyHardwareResult targetDerivation addresses s = s) := by
  constructor
  · intro a hd; simp [applyLiveResult, hd]
  · intro targetDerivation addresses hd; simp [applyHardwareResult, hd]

/-- Witness for C1 (amended): on a session with no derivation selected,
both completion handlers discard their results. -/
theorem c1_amended_witness :
    applyLiveResult "0xaaa" initialLedger = initialLedger ∧
    applyHardwareResult (some Derivation.legacy) ["0xbbb"] initialLedger =
      initialLedger :=
  ⟨(c1_amended initialLedger).1 "0xaaa" (by decide),
   (c1_amended initialLedger).2 (some Derivation.legacy) ["0xbbb"] (by decide)⟩

/-- C5, counterexample: with accountLimit 5, when the index-2 device call
fails with an unmapped code (1, classified NEEDS_RECONNECTION), the error
path closes the session, which drops the still-pending sibling requests
for indices 3 and 4, so the final address list is the two addresses for
indices 0 and 1 -- not the four addresses the claim asserts. -/
theorem c5_counterexample :
    c5Start.accountLimit = 5 ∧
    getStatusForError (some 1) = Status.NEEDS_RECONNECTION ∧
    (deriveLiveAddresses c5Outcomes c5Start).addresses = ["0xa0", "0xa1"] ∧
    (deriveLiveAddresses c5Outcomes c5Start).closed = true ∧
    (["0xa0", "0xa1"] : List String) ≠ ["0xa0", "0xa1", "0xa3", "0xa4"] := by
  decide

/-- C5, amended: in per-index derivation with accountLimit 5 where the
index-2 device call fails while the others succeed, the failure is caught
inside that request and routed to the error path; provided the failure is
classified as a non-closing status (LOCKED or WRONG_APP, i.e. not
NEEDS_RECONNECTION), the sibling requests are unaffected, the session
stays open and the final address list holds the addresses for indices
0, 1, 3, 4 in ascending index order; a NEEDS_RECONNECTION-classified
failure instead closes the session, dropping the pending siblings. -/
theorem c5_amended (a0 a1 a3 a4 : String) (e : DeviceError)
    (hcls : getStatusForError e.statusCode ≠ Status.NEEDS_RECONNECTION)
    (s : Ledger) (hd : s.derivation = some Derivation.live)
    (hc : s.closed = false) (hl : s.accountLimit = 5) :
    (deriveLiveAddresses (c5OutcomesOf a0 a1 a3 a4 e)
        (deriveAddressesStart s)).addresses = [a0, a1, a3, a4] ∧
    (deriveLiveAddresses (c5OutcomesOf a0 a1 a3 a4 e)
        (deriveAddressesStart s)).closed = false := by
  have hrange : List.range 5 = [0, 1, 2, 3, 4] := by decide
  obtain ⟨st, addrs, der, limit, cl, evs, tops, pf, ep⟩ := s
  simp only at hd hc hl
  subst hd; subst hc; subst hl
  by_cases ha : isDeviceAsleep e.statusCode = true
  · have hcode := isDeviceAsleep_eq _ ha
    have hna : isDeviceAsleep (some 27404) = true := by decide
    simp [deriveLiveAddresses, deriveAddressesStart, updateStatus, hrange,
      runLiveQueue, runLiveRequest, applyLiveResult, handleError, closeSession,
      hcode, hna, c5OutcomesOf]
  · have ha' : isDeviceAsleep e.statusCode = false := by
      cases hb : isDeviceAsleep e.statusCode
      · rfl
      · exact absurd hb ha
    rcases getStatusForError_of_not_asleep _ ha' with hw | hn
    · simp [deriveLiveAddresses, deriveAddressesStart, updateStatus, hrange,
        runLiveQueue, runLiveRequest, applyLiveResult, handleError, closeSession,
        hw, ha', c5OutcomesOf]
    · exact absurd hn hcls

/-- Witness for C5 (amended): concrete addresses with an asleep failure
(27404) at index 2 end with the four sibling addresses in index order and
the session still open. -/
theorem c5_amended_witness :
    (deriveLiveAddresses
        (c5OutcomesOf "0xa0" "0xa1" "0xa3" "0xa4"
          { statusCode := some 27404, message := "asleep" })
        (deriveAddressesStart liveLedger)).addresses =
      ["0xa0", "0xa1", "0xa3", "0xa4"] :=
  (c5_amended "0xa0" "0xa1" "0xa3" "0xa4"
    { statusCode := some 27404, message := "asleep" } (by decide)
    liveLedger (by decide) (by decide) (by decide)).1

end Frame
